import Mathlib

/-!
Shallow embedding of the Carry-Connect delivery-lifecycle core:
the data model of `src/shared/schema.ts`, the in-memory persistence
operations of `src/server/storage.ts` (`MemStorage`), and the route
handlers of `src/server/routes.ts` that the specification's claims are
about. Machine integers are modelled as `Nat`/`Int`; JavaScript `Map`s
in insertion order become Lean lists; nullable fields become `Option`.
-/

/-- Delivery status enum (`deliveryStatusEnum` in `src/shared/schema.ts`). -/
inductive Status where
  | requested
  | accepted
  | picked
  | delivered
deriving DecidableEq

/-- Package size enum (`packageSizeEnum` in `src/shared/schema.ts`). -/
inductive PackageSize where
  | small
  | medium
  | large
deriving DecidableEq

/-- User role enum (`userRoleEnum` in `src/shared/schema.ts`). -/
inductive Role where
  | sender
  | carrier
  | both
deriving DecidableEq

/-- A row of the `users` table (`src/shared/schema.ts`). -/
structure User where
  id : Nat
  username : String
  password : String
  fullName : String
  role : Role
  rating : Int
  totalReviews : Nat
deriving DecidableEq

/-- A row of the `deliveries` table (`src/shared/schema.ts`). -/
structure Delivery where
  id : Nat
  senderId : Nat
  carrierId : Option Nat
  pickupLocation : String
  dropLocation : String
  packageSize : PackageSize
  packageWeight : Int
  description : Option String
  specialInstructions : Option String
  preferredDeliveryDate : String
  preferredDeliveryTime : String
  status : Status
  deliveryFee : Int
  createdAt : Nat
deriving DecidableEq

/-- A row of the `reviews` table (`src/shared/schema.ts`). -/
structure Review where
  id : Nat
  deliveryId : Nat
  reviewerId : Nat
  revieweeId : Nat
  rating : Int
  comment : Option String
  createdAt : Nat
deriving DecidableEq

/-- The state held by `MemStorage` in `src/server/storage.ts`: the three
entity maps (in insertion order) and the three id counters. -/
structure Store where
  users : List User
  deliveries : List Delivery
  reviews : List Review
  nextUserId : Nat
  nextDeliveryId : Nat
  nextReviewId : Nat
deriving DecidableEq

/-- Error outcomes of the route handlers in `src/server/routes.ts`; one
constructor per distinct error response branch. -/
inductive Err where
  /-- 404 "Delivery not found". -/
  | notFound
  /-- 403 "Forbidden: Not associated with this delivery". -/
  | forbiddenNotAssociated
  /-- 403 "Only carriers can accept / mark as picked / mark as delivered". -/
  | forbiddenOnlyCarriers
  /-- 400 wrong current status for the requested transition. -/
  | invalidTransition
  /-- 400 "Can only review completed deliveries". -/
  | notDelivered
  /-- 403 "Only participants in the delivery can leave reviews". -/
  | forbiddenNotParticipant
  /-- 400 "Invalid reviewee". -/
  | invalidReviewee
  /-- 400 "You have already reviewed this delivery". -/
  | alreadyReviewed
  /-- 400 zod validation error. -/
  | validationError
deriving DecidableEq

/-- `MemStorage.getDeliveryById`: lookup in the deliveries map. -/
def getDeliveryById (s : Store) (id : Nat) : Option Delivery :=
  s.deliveries.find? (fun d => d.id == id)

/-- `MemStorage.getUser`: lookup in the users map. -/
def getUser (s : Store) (id : Nat) : Option User :=
  s.users.find? (fun u => u.id == id)

/-- `Map.set` on an existing delivery key: replaces the entry in place. -/
def setDelivery (s : Store) (id : Nat) (d' : Delivery) : Store :=
  { s with deliveries := s.deliveries.map (fun d => if d.id = id then d' else d) }

/-- `MemStorage.updateDeliveryStatus` (`src/server/storage.ts` lines
497-508): overwrite the status and, when a truthy `carrierId` argument is
given, the carrierId; there is no condition on the current status. -/
def updateDeliveryStatus (s : Store) (id : Nat) (status : Status)
    (carrierId : Option Nat) : Option (Store × Delivery) :=
  match getDeliveryById s id with
  | none => none
  | some d =>
    let d' : Delivery :=
      { d with
        status := status
        carrierId :=
          match carrierId with
          | some c => if c = 0 then d.carrierId else some c
          | none => d.carrierId }
    some (setDelivery s id d', d')

/-- The handler of `PATCH /api/deliveries/:id/status` (`src/server/routes.ts`
lines 97-153), after the enum membership check on the raw status string has
succeeded (so the target is one of the four `Status` values). -/
def patchDeliveryStatus (s : Store) (deliveryId actorId : Nat)
    (target : Status) : Except Err (Store × Delivery) :=
  match getDeliveryById s deliveryId with
  | none => .error .notFound
  | some delivery =>
    let isCarrier : Bool := delivery.carrierId == some actorId
    let isSender : Bool := actorId == delivery.senderId
    if !isCarrier && !isSender then .error .forbiddenNotAssociated
    else
      let checks : Except Err Unit :=
        match target with
        | .accepted =>
          if delivery.status ≠ .requested then .error .invalidTransition
          else if !isCarrier then .error .forbiddenOnlyCarriers
          else .ok ()
        | .picked =>
          if delivery.status ≠ .accepted then .error .invalidTransition
          else if !isCarrier then .error .forbiddenOnlyCarriers
          else .ok ()
        | .delivered =>
          if delivery.status ≠ .picked then .error .invalidTransition
          else if !isCarrier then .error .forbiddenOnlyCarriers
          else .ok ()
        | .requested => .ok ()
      match checks with
      | .error e => .error e
      | .ok () =>
        match updateDeliveryStatus s deliveryId target
            (if target = .accepted then some actorId else none) with
        | some r => .ok r
        | none => .error .notFound

/-- The raw body of `POST /api/deliveries` as the client may send it.
`status` and `carrierId` may be supplied by the caller, but
`insertDeliverySchema` (`src/shared/schema.ts` lines 61-66) omits both
fields, so `createDeliverySchema.parse` strips them. -/
structure RawDeliveryBody where
  pickupLocation : String
  dropLocation : String
  packageSize : PackageSize
  packageWeight : Int
  description : Option String
  specialInstructions : Option String
  preferredDeliveryDate : String
  preferredDeliveryTime : String
  deliveryFee : Int
  status : Option Status
  carrierId : Option Nat
deriving DecidableEq

/-- The output of `createDeliverySchema.parse` (`InsertDelivery` in
`src/shared/schema.ts`): no `id`, `carrierId`, `status` or `createdAt`
field. -/
structure InsertDelivery where
  senderId : Nat
  pickupLocation : String
  dropLocation : String
  packageSize : PackageSize
  packageWeight : Int
  description : Option String
  specialInstructions : Option String
  preferredDeliveryDate : String
  preferredDeliveryTime : String
  deliveryFee : Int
deriving DecidableEq

/-- `createDeliverySchema.parse` applied to the request body with
`senderId` overridden by the authenticated user (`src/server/routes.ts`
lines 76-79): weight and fee at least 1, non-empty locations; unknown
keys (`status`, `carrierId`) are stripped. -/
def parseCreateDelivery (body : RawDeliveryBody) (senderId : Nat) :
    Except Err InsertDelivery :=
  if body.packageWeight < 1 ∨ body.deliveryFee < 1 ∨
      body.pickupLocation = "" ∨ body.dropLocation = "" then
    .error .validationError
  else
    .ok
      { senderId := senderId
        pickupLocation := body.pickupLocation
        dropLocation := body.dropLocation
        packageSize := body.packageSize
        packageWeight := body.packageWeight
        description := body.description
        specialInstructions := body.specialInstructions
        preferredDeliveryDate := body.preferredDeliveryDate
        preferredDeliveryTime := body.preferredDeliveryTime
        deliveryFee := body.deliveryFee }

/-- `MemStorage.createDelivery` (`src/server/storage.ts` lines 484-495):
fresh id, status `requested`, `carrierId` absent, server-assigned
creation time. -/
def createDelivery (s : Store) (ins : InsertDelivery) (now : Nat) :
    Store × Delivery :=
  let d : Delivery :=
    { id := s.nextDeliveryId
      senderId := ins.senderId
      carrierId := none
      pickupLocation := ins.pickupLocation
      dropLocation := ins.dropLocation
      packageSize := ins.packageSize
      packageWeight := ins.packageWeight
      description := ins.description
      specialInstructions := ins.specialInstructions
      preferredDeliveryDate := ins.preferredDeliveryDate
      preferredDeliveryTime := ins.preferredDeliveryTime
      status := .requested
      deliveryFee := ins.deliveryFee
      createdAt := now }
  ({ s with
      deliveries := s.deliveries ++ [d]
      nextDeliveryId := s.nextDeliveryId + 1 }, d)

/-- The handler of `POST /api/deliveries` (`src/server/routes.ts` lines
74-94): parse, then persist. -/
def postDelivery (s : Store) (actorId : Nat) (body : RawDeliveryBody)
    (now : Nat) : Except Err (Store × Delivery) :=
  match parseCreateDelivery body actorId with
  | .error e => .error e
  | .ok ins => .ok (createDelivery s ins now)

/-- The body of `POST /api/reviews` after `insertReviewSchema.parse`
(`src/shared/schema.ts` lines 68-71): typed fields only — the schema
places no range bound on `rating`. `reviewerId` is overridden with
the authenticated user by the route, so it is not part of the body. -/
structure ReviewRequest where
  deliveryId : Nat
  revieweeId : Nat
  rating : Int
  comment : Option String
deriving DecidableEq

/-- `MemStorage.getReviewByDeliveryAndReviewer` (`src/server/storage.ts`
lines 639-643). -/
def getReviewByDeliveryAndReviewer (s : Store) (deliveryId reviewerId : Nat) :
    Option Review :=
  s.reviews.find? (fun r => r.deliveryId == deliveryId && r.reviewerId == reviewerId)

/-- JavaScript `Math.round`: round half up (toward positive infinity),
applied to the exact rational value. -/
def jsRound (q : ℚ) : ℤ := ⌊q + 1 / 2⌋

/-- Modelled from the spec: the rounding rule the specification names,
round half away from zero (§9: "preserve round-half-away-from-zero
behavior"). Kept separate from `jsRound`, which is what the source runs. -/
def roundHalfAwayFromZero (q : ℚ) : ℤ :=
  if 0 ≤ q then ⌊q + 1 / 2⌋ else -⌊-q + 1 / 2⌋

/-- `Map.set` on an existing user key: replaces the entry in place. -/
def setUser (s : Store) (id : Nat) (u' : User) : Store :=
  { s with users := s.users.map (fun u => if u.id = id then u' else u) }

/-- `MemStorage.updateUserRating` (`src/server/storage.ts` lines 646-668):
recompute the reviewee's aggregate rating as `Math.round` of the mean of
all their reviews and the review count; no-op when the user is missing or
has no reviews. -/
def updateUserRating (s : Store) (userId : Nat) : Store :=
  match getUser s userId with
  | none => s
  | some user =>
    let userReviews := s.reviews.filter (fun r => r.revieweeId == userId)
    if userReviews = [] then s
    else
      let totalRating : Int := (userReviews.map (fun r => r.rating)).sum
      let averageRating : Int :=
        jsRound ((totalRating : ℚ) / (userReviews.length : ℚ))
      setUser s userId
        { user with rating := averageRating, totalReviews := userReviews.length }

/-- `MemStorage.createReview` (`src/server/storage.ts` lines 595-609):
insert the review, then recompute the reviewee's aggregate rating. -/
def createReview (s : Store) (actorId : Nat) (req : ReviewRequest)
    (now : Nat) : Store × Review :=
  let rev : Review :=
    { id := s.nextReviewId
      deliveryId := req.deliveryId
      reviewerId := actorId
      revieweeId := req.revieweeId
      rating := req.rating
      comment := req.comment
      createdAt := now }
  let s' : Store :=
    { s with reviews := s.reviews ++ [rev], nextReviewId := s.nextReviewId + 1 }
  (updateUserRating s' req.revieweeId, rev)

/-- The handler of `POST /api/reviews` (`src/server/routes.ts` lines
179-231), after `insertReviewSchema.parse` has succeeded. -/
def postReview (s : Store) (actorId : Nat) (req : ReviewRequest)
    (now : Nat) : Except Err (Store × Review) :=
  match getDeliveryById s req.deliveryId with
  | none => .error .notFound
  | some delivery =>
    if delivery.status ≠ .delivered then .error .notDelivered
    else
      let isCarrier : Bool := delivery.carrierId == some actorId
      let isSender : Bool := actorId == delivery.senderId
      if !isCarrier && !isSender then .error .forbiddenNotParticipant
      else if some req.revieweeId ≠
          (if isSender then delivery.carrierId else some delivery.senderId) then
        .error .invalidReviewee
      else
        match getReviewByDeliveryAndReviewer s req.deliveryId actorId with
        | some _ => .error .alreadyReviewed
        | none => .ok (createReview s actorId req now)

/-- The filter set of `GET /api/deliveries` (`src/server/routes.ts` lines
36-43): each key is present only when the query parameter is truthy. -/
structure Filters where
  status : Option Status
  pickupLocation : Option String
  dropLocation : Option String
  packageSize : Option PackageSize
deriving DecidableEq

/-- The sender/carrier projection built by
`MemStorage.getDeliveriesWithFilters` (`src/server/storage.ts` lines
454-470): exactly the six public fields, no `password`. -/
structure PublicUser where
  id : Nat
  username : String
  fullName : String
  rating : Int
  totalReviews : Nat
  role : Role
deriving DecidableEq

/-- The redaction of a user to their public profile fields. -/
def publicProfile (u : User) : PublicUser :=
  { id := u.id
    username := u.username
    fullName := u.fullName
    rating := u.rating
    totalReviews := u.totalReviews
    role := u.role }

/-- `DeliveryWithUser` (`src/shared/schema.ts` lines 96-99): a delivery
enriched with its sender's (and possibly carrier's) public profile. -/
structure DeliveryWithUser where
  delivery : Delivery
  sender : Option PublicUser
  carrier : Option PublicUser
deriving DecidableEq

/-- The comparator `(a, b) => dateB - dateA` of
`MemStorage.getDeliveriesWithFilters`: newest first by creation time. -/
def newerFirst (a b : Delivery) : Prop :=
  b.createdAt ≤ a.createdAt

instance : DecidableRel newerFirst :=
  fun a b => Nat.decLe b.createdAt a.createdAt

instance : IsTotal Delivery newerFirst :=
  ⟨fun a b => Nat.le_total b.createdAt a.createdAt⟩

instance : IsTrans Delivery newerFirst :=
  ⟨fun _ _ _ hab hbc => Nat.le_trans hbc hab⟩

/-- The per-delivery enrichment step of
`MemStorage.getDeliveriesWithFilters` (`src/server/storage.ts` lines
449-477): attach the sender's and (when a carrier id is set, truthily)
the carrier's public profile. -/
def enrichWithSender (s : Store) (d : Delivery) : DeliveryWithUser :=
  { delivery := d
    sender := (getUser s d.senderId).map publicProfile
    carrier :=
      match d.carrierId with
      | some c => if c = 0 then none else (getUser s c).map publicProfile
      | none => none }

/-- `MemStorage.getDeliveriesWithFilters` (`src/server/storage.ts` lines
421-478): apply the present filters as exact-match predicates, sort
newest first, enrich each result. -/
def getDeliveriesWithFilters (s : Store) (f : Filters) : List DeliveryWithUser :=
  let ds := s.deliveries
  let ds :=
    match f.status with
    | some v => ds.filter (fun d => d.status == v)
    | none => ds
  let ds :=
    match f.pickupLocation with
    | some v => ds.filter (fun d => d.pickupLocation == v)
    | none => ds
  let ds :=
    match f.dropLocation with
    | some v => ds.filter (fun d => d.dropLocation == v)
    | none => ds
  let ds :=
    match f.packageSize with
    | some v => ds.filter (fun d => d.packageSize == v)
    | none => ds
  (List.insertionSort newerFirst ds).map (enrichWithSender s)

/-- Concrete user fixtures mirroring `MemStorage.seedData`
(`src/server/storage.ts` lines 316-392). -/
def johnSender : User :=
  { id := 1, username := "john", password := "pw1", fullName := "John"
    role := .sender, rating := 0, totalReviews := 0 }

def aliceCarrier : User :=
  { id := 2, username := "alice", password := "pw2", fullName := "Alice"
    role := .carrier, rating := 0, totalReviews := 0 }

def bobBoth : User :=
  { id := 3, username := "bob", password := "pw3", fullName := "Bob"
    role := .both, rating := 0, totalReviews := 0 }

/-- A freshly requested delivery from the seed scenario: sender 1,
Pune to Mumbai, medium, 3500 g, fee 30000, no carrier yet. -/
def puneDelivery : Delivery :=
  { id := 1, senderId := 1, carrierId := none
    pickupLocation := "Pune", dropLocation := "Mumbai"
    packageSize := .medium, packageWeight := 3500
    description := some "Electronics", specialInstructions := some "Handle with care"
    preferredDeliveryDate := "2023-06-22", preferredDeliveryTime := "Before 6:00 PM"
    status := .requested, deliveryFee := 30000, createdAt := 10 }

/-- Store holding one requested delivery. -/
def storeRequested : Store :=
  { users := [johnSender, aliceCarrier, bobBoth]
    deliveries := [puneDelivery]
    reviews := []
    nextUserId := 4, nextDeliveryId := 2, nextReviewId := 1 }

/-- Store holding one picked delivery carried by user 2 (the state of the
seeded delivery 1 in `MemStorage.seedData`). -/
def storePicked : Store :=
  { storeRequested with
      deliveries := [{ puneDelivery with status := .picked, carrierId := some 2 }] }

/-- Store holding one delivered delivery carried by user 2. -/
def storeDelivered : Store :=
  { storeRequested with
      deliveries := [{ puneDelivery with status := .delivered, carrierId := some 2 }] }

/-- Store holding two delivered deliveries, both carried by user 2, with
senders 1 and 3. -/
def storeTwoDelivered : Store :=
  { storeRequested with
      deliveries :=
        [{ puneDelivery with status := .delivered, carrierId := some 2 },
         { puneDelivery with id := 2, senderId := 3, status := .delivered
                             carrierId := some 2, createdAt := 20 }]
      nextDeliveryId := 3 }

/-- The conjunction of the exact-match filters a delivery must satisfy to
be listed. -/
def matchesFilters (f : Filters) (d : Delivery) : Bool :=
  (match f.status with | some v => d.status == v | none => true) &&
  (match f.pickupLocation with | some v => d.pickupLocation == v | none => true) &&
  (match f.dropLocation with | some v => d.dropLocation == v | none => true) &&
  (match f.packageSize with | some v => d.packageSize == v | none => true)

/-- The documented delivery invariant: `carrierId` is null iff the status
is `requested` (spec §3). -/
def carrierInvariant (d : Delivery) : Prop :=
  d.carrierId = none ↔ d.status = .requested

/-- Uniqueness of reviews per (delivery, reviewer) pair across the store. -/
def reviewPairwiseUnique (s : Store) : Prop :=
  s.reviews.Pairwise
    (fun a b => ¬(a.deliveryId = b.deliveryId ∧ a.reviewerId = b.reviewerId))

instance : DecidablePred carrierInvariant :=
  fun d => inferInstanceAs (Decidable (d.carrierId = none ↔ d.status = .requested))

instance : DecidablePred reviewPairwiseUnique :=
  fun s =>
    inferInstanceAs
      (Decidable (s.reviews.Pairwise
        (fun (a b : Review) =>
          ¬(a.deliveryId = b.deliveryId ∧ a.reviewerId = b.reviewerId))))

/-- C1: the claim says every authenticated non-sender actor can move a
`requested` delivery to `accepted`, becoming its carrier. On the code this
is impossible: `isCarrier` is computed against the still-null `carrierId`,
so a non-sender actor fails the association check with 403 and the sender
fails the carrier-role check with 403; no accept attempt can ever succeed.
This theorem evaluates the handler at the failing inputs. -/
theorem C1_accept_always_blocked :
    getDeliveryById storeRequested 1 = some puneDelivery ∧
    puneDelivery.status = .requested ∧ puneDelivery.carrierId = none ∧
    patchDeliveryStatus storeRequested 1 2 .accepted = .error .forbiddenNotAssociated ∧
    patchDeliveryStatus storeRequested 1 3 .accepted = .error .forbiddenNotAssociated ∧
    patchDeliveryStatus storeRequested 1 1 .accepted = .error .forbiddenOnlyCarriers :=
  ⟨rfl, rfl, rfl, rfl, rfl, rfl⟩

/-- C2: the claim says every status transition preserves the invariant
"carrierId is null iff status is `requested`". On the code, a transition
whose target is `requested` passes through no guard at all: the sender of
a delivered delivery (which satisfies the invariant) can reset it to
`requested` while `carrierId` stays set, violating the invariant. -/
theorem C2_reset_breaks_invariant :
    carrierInvariant { puneDelivery with status := .delivered, carrierId := some 2 } ∧
    (∃ s' d',
      patchDeliveryStatus storeDelivered 1 1 .requested = .ok (s', d') ∧
      d' ∈ s'.deliveries ∧ d'.status = .requested ∧ d'.carrierId = some 2 ∧
      ¬carrierInvariant d') :=
  ⟨by decide, _, _, rfl, by decide, rfl, rfl, by decide⟩

/-- C3: the claim says a delivery's status can only move forward along
requested → accepted → picked → delivered, any other transition failing
with InvalidTransition. On the code the target `requested` is accepted
from any source state for an associated actor, so a picked delivery moves
backward to `requested`. -/
theorem C3_reset_moves_backward :
    getDeliveryById storePicked 1 =
      some { puneDelivery with status := .picked, carrierId := some 2 } ∧
    (∃ s' d',
      patchDeliveryStatus storePicked 1 1 .requested = .ok (s', d') ∧
      d'.status = .requested ∧ d'.carrierId = some 2) :=
  ⟨rfl, _, _, rfl, rfl, rfl⟩

/-- C6: the claim says a rating outside [1,5] is rejected by server-side
validation. `insertReviewSchema` places no range bound on `rating`, so a
rating of 6 passes every check and the review is persisted. -/
theorem C6_out_of_range_rating_persisted :
    ∃ s' rev, postReview storeDelivered 1 ⟨1, 2, 6, none⟩ 30 = .ok (s', rev) ∧
      rev.rating = 6 ∧ rev ∈ s'.reviews :=
  ⟨_, _, rfl, rfl, by decide⟩

/-- C7: the claim says that of two concurrent accept attempts on a
`requested` delivery exactly one succeeds because acceptance is an atomic
conditional update. On the code, zero accept attempts can succeed (both
competing carriers fail the association check), and the storage primitive
`updateDeliveryStatus` is an unconditional overwrite with no guard on the
current status: applied to an already-delivered delivery it happily
rewrites status and carrier. -/
theorem C7_no_accept_no_conditional_update :
    patchDeliveryStatus storeRequested 1 2 .accepted = .error .forbiddenNotAssociated ∧
    patchDeliveryStatus storeRequested 1 3 .accepted = .error .forbiddenNotAssociated ∧
    (∃ s' d',
      updateDeliveryStatus storeDelivered 1 .accepted (some 9) = some (s', d') ∧
      d'.status = .accepted ∧ d'.carrierId = some 9) :=
  ⟨rfl, rfl, _, _, rfl, rfl, rfl⟩

/-- C5 counterexample: two reviews for user 2, both submitted through the
review endpoint with ratings -2 and -3 (which server-side validation does
not reject), leave user 2 with aggregate rating `Math.round(-2.5) = -2`,
while the claimed round-half-away-from-zero of the mean is -3. -/
theorem C5_counterexample_rounding :
    ∃ s1 r1, postReview storeTwoDelivered 1 ⟨1, 2, -2, none⟩ 30 = .ok (s1, r1) ∧
    ∃ s2 r2, postReview s1 3 ⟨2, 2, -3, none⟩ 31 = .ok (s2, r2) ∧
      s2.reviews.map Review.rating = [-2, -3] ∧
      s2.reviews.map Review.revieweeId = [2, 2] ∧
      (getUser s2 2).map User.rating =
        some (jsRound (((-5 : ℤ) : ℚ) / ((2 : ℕ) : ℚ))) ∧
      (getUser s2 2).map User.totalReviews = some 2 ∧
      jsRound (((-5 : ℤ) : ℚ) / ((2 : ℕ) : ℚ)) = -2 ∧
      roundHalfAwayFromZero (((-5 : ℤ) : ℚ) / ((2 : ℕ) : ℚ)) = -3 ∧
      (-2 : ℤ) ≠ -3 := by
  refine ⟨_, _, rfl, _, _, rfl, rfl, rfl, rfl, rfl, ?_, ?_, by decide⟩
  · simp only [jsRound]; norm_num
  · simp only [roundHalfAwayFromZero]; norm_num

/-- C9 counterexample: the claim says a sender's attempt to accept their
own delivery fails with Forbidden for every delivery; on a delivery whose
status is already `picked`, the source-state check fires first and the
attempt fails with InvalidTransition (a 400), not Forbidden (a 403). -/
theorem C9_counterexample_not_forbidden :
    (storePicked.deliveries.map Delivery.senderId = [1]) ∧
    patchDeliveryStatus storePicked 1 1 .accepted = .error .invalidTransition ∧
    Err.invalidTransition ≠ Err.forbiddenOnlyCarriers ∧
    Err.invalidTransition ≠ Err.forbiddenNotAssociated :=
  ⟨rfl, rfl, by decide, by decide⟩

/-- C9 amended: for every delivery in status `requested` with no carrier
assigned, the sender's attempt to accept their own delivery fails with the
403 carrier-role error, and no store mutation is returned. -/
theorem C9_amended_sender_accept_forbidden :
    ∀ (s : Store) (id : Nat) (d : Delivery),
      getDeliveryById s id = some d → d.status = .requested → d.carrierId = none →
      patchDeliveryStatus s id d.senderId .accepted = .error .forbiddenOnlyCarriers := by
  intro s id d hfind hst hc
  simp only [patchDeliveryStatus, hfind, hc, hst]
  simp

/-- Witness for C9 amended at the concrete requested delivery. -/
theorem C9_amended_witness :
    patchDeliveryStatus storeRequested 1 1 .accepted = .error .forbiddenOnlyCarriers :=
  C9_amended_sender_accept_forbidden storeRequested 1 puneDelivery rfl rfl rfl

/-- C10: whatever the request body carries — including caller-supplied
`status` or `carrierId` values, which the insert schema strips — a
successfully created delivery has status `requested` and no carrier, and
is appended to the store. -/
theorem C10_create_strips_status_and_carrier :
    ∀ (s : Store) (actorId : Nat) (body : RawDeliveryBody) (now : Nat)
      (s' : Store) (d : Delivery),
      postDelivery s actorId body now = .ok (s', d) →
      d.status = .requested ∧ d.carrierId = none ∧
      s'.deliveries = s.deliveries ++ [d] := by
  intro s actorId body now s' d h
  simp only [postDelivery, parseCreateDelivery] at h
  split at h
  · exact absurd h (by simp)
  · simp only [createDelivery] at h
    injection h with h'
    injection h' with hs hd
    subst hs
    subst hd
    exact ⟨rfl, rfl, rfl⟩

/-- A request body that tries to pre-claim the delivery: it carries
`status := delivered` and `carrierId := 9`. -/
def bodyWithPreclaim : RawDeliveryBody :=
  { pickupLocation := "Pune", dropLocation := "Mumbai"
    packageSize := .medium, packageWeight := 3500
    description := none, specialInstructions := none
    preferredDeliveryDate := "2023-06-22", preferredDeliveryTime := "Before 6:00 PM"
    deliveryFee := 30000
    status := some .delivered, carrierId := some 9 }

/-- Witness for C10: even a body supplying `status := delivered` and
`carrierId := 9` produces a requested, carrier-free delivery. -/
theorem C10_witness :
    ∃ s' d, postDelivery storeRequested 1 bodyWithPreclaim 50 = .ok (s', d) ∧
      d.status = .requested ∧ d.carrierId = none := by
  obtain ⟨h1, h2, _⟩ :=
    C10_create_strips_status_and_carrier storeRequested 1 bodyWithPreclaim 50 _ _ rfl
  exact ⟨_, _, rfl, h1, h2⟩

/-- Replacing, in place, every list entry whose id matches leaves the
first match of a subsequent id-lookup pointing at the replacement. -/
theorem find_id_after_replace {l : List User} {uid : Nat} {u u' : User}
    (h : l.find? (fun x => x.id == uid) = some u) (hid : u'.id = uid) :
    (l.map (fun x => if x.id = uid then u' else x)).find?
      (fun x => x.id == uid) = some u' := by
  induction l with
  | nil => simp at h
  | cons x xs ih =>
    by_cases hx : x.id = uid
    · simp [hx, hid]
    · rw [List.find?_cons_of_neg _ (by simp [hx])] at h
      simpa [hx, List.find?_cons_of_neg, beq_iff_eq] using ih h

/-- `getUser` after `setUser` at the same id returns the replacement. -/
theorem getUser_setUser {s : Store} {uid : Nat} {u u' : User}
    (h : getUser s uid = some u) (hid : u'.id = uid) :
    getUser (setUser s uid u') uid = some u' :=
  find_id_after_replace h hid

/-- A successful user lookup pins the id field. -/
theorem getUser_id {s : Store} {uid : Nat} {u : User}
    (h : getUser s uid = some u) : u.id = uid := by
  have := List.find?_some h
  simpa [beq_iff_eq] using this

/-- Recomputing a user's rating never changes the reviews map. -/
theorem updateUserRating_reviews (s : Store) (uid : Nat) :
    (updateUserRating s uid).reviews = s.reviews := by
  unfold updateUserRating
  split
  · rfl
  · dsimp only
    split
    · rfl
    · rfl

/-- Recomputing a user's rating never changes the deliveries map. -/
theorem updateUserRating_deliveries (s : Store) (uid : Nat) :
    (updateUserRating s uid).deliveries = s.deliveries := by
  unfold updateUserRating
  split
  · rfl
  · dsimp only
    split
    · rfl
    · rfl

/-- Eliminating a successful `postReview`: the duplicate check must have
found nothing, the created review carries the request's fields, and the
new store is the post-insert store with the reviewee's rating
recomputed. -/
theorem postReview_ok_elim {s : Store} {actorId : Nat} {req : ReviewRequest}
    {now : Nat} {s' : Store} {rev : Review}
    (h : postReview s actorId req now = .ok (s', rev)) :
    getReviewByDeliveryAndReviewer s req.deliveryId actorId = none ∧
    rev = { id := s.nextReviewId, deliveryId := req.deliveryId
            reviewerId := actorId, revieweeId := req.revieweeId
            rating := req.rating, comment := req.comment, createdAt := now } ∧
    s' = updateUserRating
      { s with reviews := s.reviews ++ [rev], nextReviewId := s.nextReviewId + 1 }
      req.revieweeId := by
  unfold postReview at h
  dsimp only at h
  repeat' split at h
  all_goals try exact (Except.noConfusion h)
  all_goals
    simp only [createReview] at h
    injection h with h'
    injection h' with hs hr
    subst hr
    subst hs
    exact ⟨by assumption, rfl, rfl⟩

/-- C4: a review submission succeeds exactly when the delivery exists in
status `delivered`, the reviewer is its carrier or sender, the reviewee is
the other party relative to the reviewer, and no review by the same
(delivery, reviewer) pair exists; a successful submission preserves
per-(delivery, reviewer) uniqueness of the persisted reviews, and a
duplicate attempt with all other preconditions met fails with the
already-reviewed conflict. -/
theorem C4_review_characterization :
    ∀ (s : Store) (actorId : Nat) (req : ReviewRequest) (now : Nat),
      ((∃ out, postReview s actorId req now = .ok out) ↔
        (∃ d, getDeliveryById s req.deliveryId = some d ∧
          d.status = .delivered ∧
          (d.carrierId = some actorId ∨ actorId = d.senderId) ∧
          some req.revieweeId =
            (if actorId = d.senderId then d.carrierId else some d.senderId) ∧
          getReviewByDeliveryAndReviewer s req.deliveryId actorId = none)) ∧
      (∀ s' rev, reviewPairwiseUnique s →
        postReview s actorId req now = .ok (s', rev) → reviewPairwiseUnique s') ∧
      (∀ d rev0, getDeliveryById s req.deliveryId = some d →
        getReviewByDeliveryAndReviewer s req.deliveryId actorId = some rev0 →
        d.status = .delivered →
        (d.carrierId = some actorId ∨ actorId = d.senderId) →
        some req.revieweeId =
          (if actorId = d.senderId then d.carrierId else some d.senderId) →
        postReview s actorId req now = .error .alreadyReviewed) := by
  intro s actorId req now
  refine ⟨?_, ?_, ?_⟩
  · cases hd : getDeliveryById s req.deliveryId with
    | none => simp [postReview, hd]
    | some d =>
      by_cases hst : d.status = .delivered <;>
      by_cases hsend : actorId = d.senderId <;>
      by_cases hcar : d.carrierId = some actorId <;>
      by_cases hrev : some req.revieweeId =
        (if actorId = d.senderId then d.carrierId else some d.senderId) <;>
      cases hdup : getReviewByDeliveryAndReviewer s req.deliveryId actorId <;>
      simp_all [postReview]
  · intro s' rev hu h
    obtain ⟨hdup, hrev, hs'⟩ := postReview_ok_elim h
    have hrw : s'.reviews = s.reviews ++ [rev] := by
      rw [hs', updateUserRating_reviews]
    unfold reviewPairwiseUnique at hu ⊢
    rw [hrw, List.pairwise_append]
    refine ⟨hu, by simp, ?_⟩
    intro a ha b hb
    rw [List.mem_singleton] at hb
    subst hb
    rintro ⟨hdel, hrer⟩
    have := List.find?_eq_none.mp hdup a ha
    rw [hrev] at hdel hrer
    simp at hdel hrer
    simp [hdel, hrer] at this
  · intro d rev0 hd hdup hst hassoc hrev
    rcases hassoc with hcar | hsend
    · by_cases hsend : actorId = d.senderId <;>
      simp_all [postReview]
    · by_cases hcar : d.carrierId = some actorId <;>
      simp_all [postReview]

/-- The seed review: sender 1 has already reviewed carrier 2 for
delivery 1 (mirroring the review in `MemStorage.seedData`). -/
def seedReview : Review :=
  { id := 1, deliveryId := 1, reviewerId := 1, revieweeId := 2
    rating := 5, comment := some "Excellent service!", createdAt := 30 }

/-- Store with a delivered delivery already reviewed by its sender. -/
def storeReviewed : Store :=
  { storeDelivered with reviews := [seedReview], nextReviewId := 2 }

/-- Witness for C4: at the concrete reviewed store, a second attempt by
the same reviewer is rejected with the already-reviewed conflict, and a
fresh successful submission by the carrier preserves the uniqueness
invariant. -/
theorem C4_witness :
    postReview storeReviewed 1 ⟨1, 2, 4, none⟩ 40 = .error .alreadyReviewed ∧
    (∃ s' rev, postReview storeReviewed 2 ⟨1, 1, 4, none⟩ 40 = .ok (s', rev) ∧
      reviewPairwiseUnique s') := by
  constructor
  · exact (C4_review_characterization storeReviewed 1 ⟨1, 2, 4, none⟩ 40).2.2
      { puneDelivery with status := .delivered, carrierId := some 2 } seedReview
      rfl rfl rfl (Or.inr rfl) rfl
  · exact ⟨_, _, rfl,
      (C4_review_characterization storeReviewed 2 ⟨1, 1, 4, none⟩ 40).2.1
        _ _ (by decide) rfl⟩

/-- The exact mean of all ratings received by a user in a store. -/
def meanRatingFor (s : Store) (userId : Nat) : ℚ :=
  (((((s.reviews.filter (fun r => r.revieweeId == userId)).map
      (fun r => r.rating)).sum : Int) : ℚ)) /
    ((s.reviews.filter (fun r => r.revieweeId == userId)).length : ℚ)

/-- C5 amended: after every successful review submission, the reviewee's
stored aggregate rating is `Math.round` (round half up) of the mean of all
ratings they have received, and their `totalReviews` is the count; when
the rating sum is nonnegative — in particular whenever all ratings lie in
[1,5] — this coincides with round-half-away-from-zero of the mean. -/
theorem C5_amended_rating_recomputation :
    ∀ (s : Store) (actorId : Nat) (req : ReviewRequest) (now : Nat)
      (s' : Store) (rev : Review) (u : User),
      postReview s actorId req now = .ok (s', rev) →
      getUser s req.revieweeId = some u →
      ∃ u', getUser s' req.revieweeId = some u' ∧
        u'.totalReviews =
          (s'.reviews.filter (fun r => r.revieweeId == req.revieweeId)).length ∧
        u'.rating = jsRound (meanRatingFor s' req.revieweeId) ∧
        (0 ≤ (((s'.reviews.filter (fun r => r.revieweeId == req.revieweeId)).map
            (fun r => r.rating)).sum : Int) →
          u'.rating = roundHalfAwayFromZero (meanRatingFor s' req.revieweeId)) := by
  intro s actorId req now s' rev u h hu
  obtain ⟨hdup, hrevv, hs'⟩ := postReview_ok_elim h
  set sIns : Store :=
    { s with reviews := s.reviews ++ [rev], nextReviewId := s.nextReviewId + 1 }
    with hsIns
  subst hs'
  have husers : getUser sIns req.revieweeId = some u := hu
  have hmem : rev ∈ sIns.reviews.filter (fun r => r.revieweeId == req.revieweeId) := by
    rw [List.mem_filter]
    refine ⟨by simp [hsIns], ?_⟩
    rw [hrevv]
    simp
  have hne : sIns.reviews.filter (fun r => r.revieweeId == req.revieweeId) ≠ [] :=
    List.ne_nil_of_mem hmem
  have hkey : getUser (updateUserRating sIns req.revieweeId) req.revieweeId =
      some { u with
        rating := jsRound
          ((((((sIns.reviews.filter (fun r => r.revieweeId == req.revieweeId)).map
              (fun r => r.rating)).sum : Int) : ℚ)) /
            ((sIns.reviews.filter (fun r => r.revieweeId == req.revieweeId)).length : ℚ))
        totalReviews :=
          (sIns.reviews.filter (fun r => r.revieweeId == req.revieweeId)).length } := by
    unfold updateUserRating
    rw [husers]
    dsimp only
    rw [if_neg hne]
    refine getUser_setUser husers ?_
    show u.id = req.revieweeId
    exact getUser_id hu
  refine ⟨_, hkey, ?_, ?_, ?_⟩
  · simp [updateUserRating_reviews]
  · simp [meanRatingFor, updateUserRating_reviews]
  · intro hnn
    rw [updateUserRating_reviews] at hnn
    have hq : 0 ≤ meanRatingFor (updateUserRating sIns req.revieweeId)
        req.revieweeId := by
      unfold meanRatingFor
      rw [updateUserRating_reviews]
      exact div_nonneg (by exact_mod_cast hnn) (Nat.cast_nonneg _)
    rw [roundHalfAwayFromZero, if_pos hq]
    simp [jsRound, meanRatingFor, updateUserRating_reviews]

/-- Witness for C5 amended: the sender of the delivered concrete delivery
rates the carrier 5; the carrier ends with one review counted. -/
theorem C5_amended_witness :
    ∃ s' rev u', postReview storeDelivered 1 ⟨1, 2, 5, none⟩ 40 = .ok (s', rev) ∧
      getUser s' 2 = some u' ∧ u'.totalReviews = 1 := by
  obtain ⟨u', h1, h2, _, _⟩ :=
    C5_amended_rating_recomputation storeDelivered 1 ⟨1, 2, 5, none⟩ 40 _ _
      aliceCarrier rfl rfl
  refine ⟨_, _, u', rfl, h1, ?_⟩
  rw [h2]
  rfl

/-- The filter chain of `getDeliveriesWithFilters` equals one filter by
the conjunction of the present predicates, then the sort, then the
enrichment. -/
theorem getDeliveriesWithFilters_eq (s : Store) (f : Filters) :
    getDeliveriesWithFilters s f =
      (List.insertionSort newerFirst
        (s.deliveries.filter (fun d => matchesFilters f d))).map
        (enrichWithSender s) := by
  obtain ⟨st, pu, dr, ps⟩ := f
  cases st <;> cases pu <;> cases dr <;> cases ps <;>
    simp [getDeliveriesWithFilters, matchesFilters, List.filter_filter,
      Bool.and_assoc, Bool.and_comm, Bool.and_left_comm]

/-- C8: the public listing returns exactly the deliveries matching the
conjunction of the present exact-match filters (all deliveries when no
filter is present), ordered newest first by creation time, each enriched
with the sender's public profile; the profile projection carries only the
six public fields and is independent of the credential secret. -/
theorem C8_list_filters_sorted_public :
    ∀ (s : Store) (f : Filters),
      (∀ x, x ∈ getDeliveriesWithFilters s f ↔
        ∃ d, d ∈ s.deliveries ∧ matchesFilters f d = true ∧
          x = enrichWithSender s d) ∧
      (getDeliveriesWithFilters s f).Pairwise
        (fun a b => b.delivery.createdAt ≤ a.delivery.createdAt) ∧
      (∀ x, x ∈ getDeliveriesWithFilters s f →
        x.sender = (getUser s x.delivery.senderId).map publicProfile) ∧
      (∀ (u : User) (pw : String),
        publicProfile { u with password := pw } = publicProfile u) := by
  intro s f
  refine ⟨?_, ?_, ?_, ?_⟩
  · intro x
    rw [getDeliveriesWithFilters_eq]
    simp only [List.mem_map, List.mem_insertionSort, List.mem_filter]
    constructor
    · rintro ⟨d, ⟨h1, h2⟩, h3⟩
      exact ⟨d, h1, h2, h3.symm⟩
    · rintro ⟨d, h1, h2, h3⟩
      exact ⟨d, ⟨h1, h2⟩, h3.symm⟩
  · rw [getDeliveriesWithFilters_eq]
    refine List.pairwise_map.mpr ?_
    exact List.sorted_insertionSort newerFirst _
  · intro x hx
    rw [getDeliveriesWithFilters_eq] at hx
    obtain ⟨d, _, rfl⟩ := List.mem_map.mp hx
    rfl
  · intro u pw
    rfl

/-- Witness for C8: at the concrete store, the requested delivery is
listed under the status filter, and redacting the seeded sender's
password does not change the public profile. -/
theorem C8_witness :
    (enrichWithSender storeRequested puneDelivery ∈
      getDeliveriesWithFilters storeRequested ⟨some .requested, none, none, none⟩) ∧
    publicProfile { johnSender with password := "leaked" } =
      publicProfile johnSender := by
  constructor
  · exact ((C8_list_filters_sorted_public storeRequested
      ⟨some .requested, none, none, none⟩).1 _).mpr
      ⟨puneDelivery, by simp [storeRequested], rfl, rfl⟩
  · exact (C8_list_filters_sorted_public storeRequested
      ⟨some .requested, none, none, none⟩).2.2.2 johnSender "leaked"
